import Mathlib

/-!
Verification of the `util-linux-cal` calendar program.

Shallow embedding of `src/types.rs`, `src/calendar.rs` and the holiday /
formatting parts of `src/formatter.rs`.  Rust `u32` month/day values are
modelled as `Nat` (the program pre-validates them to small ranges, so no
wraparound can occur), `i32` years as `Int` with the Rust truncated
division and remainder (`Int.tdiv` / `Int.tmod`).  Rust code that can
panic is modelled with `Option`, `none` standing for the panic.
-/

/-- Weekday type mirroring `chrono::Weekday`. -/
inductive Weekday where
  | mon | tue | wed | thu | fri | sat | sun
deriving DecidableEq, Repr

namespace Weekday

/-- `chrono` `num_days_from_monday`: Monday is 0, Sunday is 6. -/
def num_days_from_monday : Weekday → Nat
  | .mon => 0 | .tue => 1 | .wed => 2 | .thu => 3 | .fri => 4 | .sat => 5 | .sun => 6

/-- `chrono` `num_days_from_sunday`: Sunday is 0, Saturday is 6. -/
def num_days_from_sunday : Weekday → Nat
  | .sun => 0 | .mon => 1 | .tue => 2 | .wed => 3 | .thu => 4 | .fri => 5 | .sat => 6

/-- `chrono` `Weekday::succ`: the next day of the week. -/
def succ : Weekday → Weekday
  | .mon => .tue | .tue => .wed | .wed => .thu | .thu => .fri
  | .fri => .sat | .sat => .sun | .sun => .mon

/-- Iterated `succ` (the reform-gap loop advances the weekday cursor 11 times). -/
def succN (w : Weekday) : Nat → Weekday
  | 0 => w
  | n + 1 => (w.succ).succN n

end Weekday

/-- Week numbering system (`src/types.rs`, `WeekType`). -/
inductive WeekType where
  | iso | us
deriving DecidableEq, Repr

/-- Column display mode (`src/types.rs`, `ColumnsMode`). -/
inductive ColumnsMode where
  | fixed (n : Nat) | auto
deriving DecidableEq, Repr

/-- A calendar date triple as held by `chrono::NaiveDate` values in the context. -/
structure NDate where
  y : Int
  m : Nat
  d : Nat
deriving DecidableEq, Repr

/-- Reform constants from `src/types.rs`. -/
def REFORM_YEAR_GB : Int := 1752

def REFORM_MONTH : Nat := 9

def REFORM_FIRST_DAY : Nat := 3

def REFORM_LAST_DAY : Nat := 13

def CELLS_PER_MONTH : Nat := 42

/-- Calendar formatting context (`src/types.rs`, `CalContext`).  The sentinel
values `i32::MIN` / `i32::MAX` for `reform_year` are kept as their literal
integer values. -/
structure CalContext where
  reform_year : Int
  week_start : Weekday
  julian : Bool
  week_numbers : Bool
  week_type : WeekType
  color : Bool
  vertical : Bool
  today : NDate
  show_year_in_header : Bool
  gutter_width : Nat
  columns : ColumnsMode
  span : Bool
  holidays : Bool
deriving Repr

/-- `ReformType` (`src/types.rs`). -/
inductive ReformType where
  | gregorian | iso | julian | year1752
deriving DecidableEq, Repr

/-- `ReformType::reform_year`: `i32::MIN` for Gregorian/Iso, `i32::MAX` for
Julian, 1752 for the Great Britain reform. -/
def ReformType.reform_year : ReformType → Int
  | .gregorian => -2147483648
  | .iso => -2147483648
  | .julian => 2147483647
  | .year1752 => REFORM_YEAR_GB

namespace CalContext

/-- `CalContext::is_leap_year` (`src/calendar.rs:12-20`).  Rust `%` on `i32`
is truncated remainder, hence `Int.tmod`. -/
def is_leap_year (c : CalContext) (year : Int) : Bool :=
  if year < c.reform_year then
    year.tmod 4 == 0
  else
    (year.tmod 4 == 0 && year.tmod 100 != 0) || year.tmod 400 == 0

/-- `CalContext::days_in_month` (`src/calendar.rs:22-30`). -/
def days_in_month (c : CalContext) (year : Int) (month : Nat) : Nat :=
  match month with
  | 1 | 3 | 5 | 7 | 8 | 10 | 12 => 31
  | 4 | 6 | 9 | 11 => 30
  | 2 => if c.is_leap_year year then 29 else 28
  | _ => 30

/-- `CalContext::is_reform_gap` (`src/calendar.rs:33-40`). -/
def is_reform_gap (c : CalContext) (year : Int) (month day : Nat) : Bool :=
  if c.reform_year != REFORM_YEAR_GB then
    false
  else
    year == REFORM_YEAR_GB && month == REFORM_MONTH
      && (REFORM_FIRST_DAY ≤ day && day ≤ REFORM_LAST_DAY)

/-- `CalContext::first_day_of_month` (`src/calendar.rs:43-68`), Zeller's
congruence.  Rust `/` and `%` on `i32` are `Int.tdiv` / `Int.tmod`;
`rem_euclid` is `Int.emod`.  The residue 0..6 maps to Sat..Fri; the source's
`unreachable!` arm cannot fire because `emod 7` is below 7, so the final
wildcard arm of the Lean match is dead code. -/
def first_day_of_month (c : CalContext) (year : Int) (month : Nat) : Weekday :=
  let m : Int := if month < 3 then (month : Int) + 12 else (month : Int)
  let q : Int := 1
  let year_i : Int := if month < 3 then year - 1 else year
  let k : Int := year_i.tmod 100
  let j : Int := year_i.tdiv 100
  let h : Int :=
    if year < c.reform_year then
      (q + (13 * (m + 1)).tdiv 5 + k + k.tdiv 4 + 5).emod 7
    else
      (q + (13 * (m + 1)).tdiv 5 + k + k.tdiv 4 + j.tdiv 4 - 2 * j).emod 7
  match h.toNat with
  | 0 => .sat
  | 1 => .sun
  | 2 => .mon
  | 3 => .tue
  | 4 => .wed
  | 5 => .thu
  | _ => .fri

/-- Cumulative days before each month (`DAYS_BEFORE_MONTH` in
`CalContext::day_of_year`). -/
def DAYS_BEFORE_MONTH : List Nat :=
  [0, 31, 59, 90, 120, 151, 181, 212, 243, 273, 304, 334]

/-- `CalContext::day_of_year` (`src/calendar.rs:71-85`).  `u32`
`saturating_sub` coincides with truncated `Nat` subtraction. -/
def day_of_year (c : CalContext) (year : Int) (month day : Nat) : Nat :=
  let doy := DAYS_BEFORE_MONTH.getD (month - 1) 0 + day
  let doy := if 2 < month && c.is_leap_year year then doy + 1 else doy
  if year == REFORM_YEAR_GB && REFORM_MONTH ≤ month then
    doy - (REFORM_LAST_DAY - REFORM_FIRST_DAY + 1)
  else
    doy

/-- `CalContext::is_weekend` (`src/calendar.rs:105-107`). -/
def is_weekend (_c : CalContext) (weekday : Weekday) : Bool :=
  match weekday with
  | .sat | .sun => true
  | _ => false

end CalContext

/-!
Model of the `chrono` crate operations used by `week_number` and by the
holiday cache: proleptic-Gregorian date validity (`NaiveDate::from_ymd_opt`),
day counting (Howard Hinnant's days-from-civil algorithm, day 0 being
1970-01-01, a Thursday), ordinal day of year, and ISO 8601 week numbers.
-/

/-- Proleptic Gregorian leap-year rule used by `chrono`. -/
def gregLeap (y : Int) : Bool :=
  (y.emod 4 == 0 && y.emod 100 != 0) || y.emod 400 == 0

/-- Days in a month of the proleptic Gregorian calendar; 0 for an invalid
month, which makes every day of such a month invalid. -/
def gregDaysInMonth (y : Int) (m : Nat) : Nat :=
  match m with
  | 1 | 3 | 5 | 7 | 8 | 10 | 12 => 31
  | 4 | 6 | 9 | 11 => 30
  | 2 => if gregLeap y then 29 else 28
  | _ => 0

/-- Validity test of `chrono::NaiveDate::from_ymd_opt`. -/
def gregValid (y : Int) (m d : Nat) : Bool :=
  decide (1 ≤ m) && decide (m ≤ 12) && decide (1 ≤ d) && decide (d ≤ gregDaysInMonth y m)

/-- Signed count of days from 1970-01-01 to the Gregorian date `(y, m, d)`. -/
def daysFromCivil (y : Int) (m d : Nat) : Int :=
  let yy : Int := if m ≤ 2 then y - 1 else y
  let era : Int := (if 0 ≤ yy then yy else yy - 399).tdiv 400
  let yoe : Nat := (yy - era * 400).toNat
  let mp : Nat := (m + 9) % 12
  let doy : Nat := (153 * mp + 2) / 5 + d - 1
  let doe : Nat := yoe * 365 + yoe / 4 - yoe / 100 + doy
  era * 146097 + (doe : Int) - 719468

/-- ISO weekday number of a Gregorian date: Monday is 1, Sunday is 7. -/
def isoWeekdayNum (y : Int) (m d : Nat) : Nat :=
  ((daysFromCivil y m d + 3).emod 7).toNat + 1

/-- `chrono` `num_days_from_sunday` of a Gregorian date: Sunday is 0. -/
def weekdayFromSundayNum (y : Int) (m d : Nat) : Nat :=
  ((daysFromCivil y m d + 4).emod 7).toNat

/-- Ordinal day of year (`chrono::Datelike::ordinal`), 1-based. -/
def gregOrdinal (y : Int) (m d : Nat) : Nat :=
  (daysFromCivil y m d - daysFromCivil y 1 1).toNat + 1

/-- Number of ISO 8601 weeks in a year: 53 when January 1 is a Thursday, or a
Wednesday of a leap year; else 52. -/
def isoWeeksInYear (y : Int) : Nat :=
  if isoWeekdayNum y 1 1 = 4 ∨ (gregLeap y ∧ isoWeekdayNum y 1 1 = 3) then 53 else 52

/-- ISO 8601 week number of a valid Gregorian date, as computed by
`chrono::Datelike::iso_week`. -/
def isoWeek (y : Int) (m d : Nat) : Nat :=
  let ord := gregOrdinal y m d
  let wd := isoWeekdayNum y m d
  let w : Int := ((ord : Int) - (wd : Int) + 10).tdiv 7
  if w < 1 then isoWeeksInYear (y - 1)
  else if (isoWeeksInYear y : Int) < w then 1
  else w.toNat

namespace CalContext

/-- `CalContext::week_number` (`src/calendar.rs:87-103`).  The source unwraps
`NaiveDate::from_ymd_opt`; a failing unwrap is a panic, modelled as `none`. -/
def week_number (c : CalContext) (year : Int) (month day : Nat) : Option Nat :=
  match c.week_type with
  | .iso =>
    if gregValid year month day then some (isoWeek year month day) else none
  | .us =>
    if gregValid year month day then
      let days_since_jan1 : Nat := (daysFromCivil year month day - daysFromCivil year 1 1).toNat
      let jan1_weekday : Nat := weekdayFromSundayNum year 1 1
      some ((days_since_jan1 + jan1_weekday) / 7 + 1)
    else none

end CalContext

/-!
Month grid builder (`MonthData::new`, `src/calendar.rs:125-187`).

The three parallel vectors of the source are pushed in lockstep, so the
walk is embedded as a single list of cells whose three fields are projected
into the `MonthData` record at the end.  The day loop is translated with an
explicit fuel argument (`days_in_month + 1` suffices because every
iteration advances `day` by at least one); the `None` returned by the
builder models the panic of an unwrapped `week_number` and the
`unreachable!` of an offset for a week start other than Monday or Sunday.
-/

/-- One grid cell: the lockstep pushes into `days`, `week_numbers` and
`weekdays`. -/
structure Cell where
  day : Option Nat
  week_number : Option Nat
  weekday : Option Weekday
deriving DecidableEq, Repr

/-- An empty cell (simultaneous `push(None)` into all three vectors). -/
def emptyCell : Cell := ⟨none, none, none⟩

/-- `ctx.week_numbers.then(|| ctx.week_number(year, month, day))`: the outer
`none` is a panic inside the closure, the inner value is the pushed
`Option<u32>`. -/
def cellWeekNumber (c : CalContext) (year : Int) (month day : Nat) :
    Option (Option Nat) :=
  if c.week_numbers then (c.week_number year month day).map some else some none

/-- The `while day <= days_in_month` loop of `MonthData::new`: emits the gap's
empty cells (advancing the weekday cursor without consuming day numbers) or
one populated cell per day. -/
def gridWalk (c : CalContext) (year : Int) (month dim : Nat) :
    Nat → Nat → Weekday → Option (List Cell)
  | 0, _, _ => some []
  | fuel + 1, day, wd =>
    if dim < day then some []
    else if c.is_reform_gap year month day then
      (gridWalk c year month dim fuel (REFORM_LAST_DAY + 1) (wd.succN 11)).map
        (fun rest => List.replicate 11 emptyCell ++ rest)
    else
      match cellWeekNumber c year month day with
      | none => none
      | some wn =>
        (gridWalk c year month dim fuel (day + 1) wd.succ).map
          (fun rest => { day := some day, week_number := wn, weekday := some wd } :: rest)

/-- Leading empty-cell offset of `MonthData::new` (`src/calendar.rs:132-137`);
`none` models the `unreachable!` arm for week starts other than Monday or
Sunday. -/
def CalContext.gridOffset (c : CalContext) (first_day : Weekday) : Option Nat :=
  match c.week_start with
  | .mon => some (if first_day = .sun then 6 else first_day.num_days_from_monday)
  | .sun => some first_day.num_days_from_sunday
  | _ => none

/-- Calendar data for a single month (`src/types.rs`, `MonthData`). -/
structure MonthData where
  year : Int
  month : Nat
  days : List (Option Nat)
  week_numbers : List (Option Nat)
  weekdays : List (Option Weekday)
deriving DecidableEq, Repr

instance : Inhabited MonthData := ⟨⟨0, 0, [], [], []⟩⟩

/-- `MonthData::new` (`src/calendar.rs:127-186`): leading empty cells, the
day walk, then padding to 42 cells. -/
def MonthData.new (c : CalContext) (year : Int) (month : Nat) : Option MonthData :=
  let dim := c.days_in_month year month
  let first_day := c.first_day_of_month year month
  match c.gridOffset first_day with
  | none => none
  | some off =>
    match gridWalk c year month dim (dim + 1) 1 first_day with
    | none => none
    | some body =>
      let cells := List.replicate off emptyCell ++ body
      let cells := cells ++ List.replicate (CELLS_PER_MONTH - cells.length) emptyCell
      some { year := year, month := month,
             days := cells.map (·.day),
             week_numbers := cells.map (·.week_number),
             weekdays := cells.map (·.weekday) }

/-!
Formatter definitions (`src/formatter.rs`): ANSI color constants, the day
cell renderers, localized month names and month parsing.  The stateful
global holiday service consulted by `format_day` is passed as an explicit
code-returning function (`getCode`), standing for the call to
`get_holiday_code` at the same call site.
-/

def COLOR_RESET : String := "\x1b[0m"

def COLOR_REVERSE : String := "\x1b[7m"

def COLOR_RED : String := "\x1b[91m"

def COLOR_TEAL : String := "\x1b[96m"

def COLOR_SAND_YELLOW : String := "\x1b[93m"

/-- Rust `format!` right justification of a number in a field of width `w`. -/
def rightJust (w : Nat) (n : Nat) : String :=
  let s := toString n
  String.mk (List.replicate (w - s.length) ' ') ++ s

/-- `format_day` (`src/formatter.rs:423-459`). -/
def format_day (c : CalContext) (getCode : Int → Nat → Nat → Int)
    (day month : Nat) (year : Int) (weekday : Weekday) (is_last : Bool) : String :=
  let is_today := c.color && c.today.d == day && c.today.m == month && c.today.y == year
  let is_weekend := c.color && c.is_weekend weekday
  let holiday_code : Int := if c.color then getCode year month day else 0
  let day_str := rightJust 2 day
  let formatted :=
    if is_today then COLOR_REVERSE ++ day_str ++ COLOR_RESET
    else if holiday_code == 2 then COLOR_TEAL ++ day_str ++ COLOR_RESET
    else if is_weekend || holiday_code == 1 || holiday_code == 8 then
      COLOR_RED ++ day_str ++ COLOR_RESET
    else day_str
  if is_last then formatted else formatted ++ " "

/-- `print_day_vertical` (`src/formatter.rs:638-675`), as the string it
prints; the `MonthData` argument is reduced to the `year` and `month` fields
it reads. -/
def print_day_vertical (c : CalContext) (getCode : Int → Nat → Nat → Int)
    (day : Nat) (myear : Int) (mmonth : Nat) (weekday : Weekday) : String :=
  let is_today := c.color && c.today.d == day && c.today.m == mmonth && c.today.y == myear
  let is_weekend := c.color && c.is_weekend weekday
  let holiday_code : Int := if c.color then getCode myear mmonth day else 0
  let day_str := toString day
  let padding := 3 - day_str.length
  if is_today then
    String.mk (List.replicate padding ' ') ++ COLOR_REVERSE ++ day_str ++ COLOR_RESET
  else if holiday_code == 2 then
    String.mk (List.replicate padding ' ') ++ COLOR_TEAL ++ day_str ++ COLOR_RESET
  else if is_weekend || holiday_code == 1 || holiday_code == 8 then
    String.mk (List.replicate padding ' ') ++ COLOR_RED ++ day_str ++ COLOR_RESET
  else rightJust 3 day

/-- The locales distinguished by `get_month_name` (`src/formatter.rs:194-248`):
the three special-cased Cyrillic locales and the `en_US` default used on the
generic `chrono` fallback path. -/
inductive RLocale where
  | ru_RU | uk_UA | be_BY | en_US
deriving DecidableEq, Repr

/-- `get_month_name` (`src/formatter.rs:194-248`).  For `en_US` the generic
branch formats with `chrono`'s `%B`, which yields the English month name. -/
def get_month_name (loc : RLocale) (month : Nat) : String :=
  match loc with
  | .ru_RU =>
    ["Январь", "Февраль", "Март", "Апрель", "Май", "Июнь",
     "Июль", "Август", "Сентябрь", "Октябрь", "Ноябрь", "Декабрь"].getD (month - 1) ""
  | .uk_UA =>
    ["Січень", "Лютий", "Березень", "Квітень", "Травень", "Червень",
     "Липень", "Серпень", "Вересень", "Жовтень", "Листопад", "Грудень"].getD (month - 1) ""
  | .be_BY =>
    ["Студзень", "Люты", "Сакавік", "Красавік", "Май", "Чэрвень",
     "Ліпень", "Жнівень", "Верасень", "Кастрычнік", "Лістапад", "Снежань"].getD (month - 1) ""
  | .en_US =>
    ["January", "February", "March", "April", "May", "June",
     "July", "August", "September", "October", "November", "December"].getD (month - 1) ""

/-- Unicode simple lowercase mapping of Rust `str::to_lowercase`, restricted
to the character ranges occurring in the rendered month names: ASCII A-Z and
the Cyrillic block А-Я plus Ё, Є, І, Ї. -/
def rustCharToLower (ch : Char) : Char :=
  if 'A' ≤ ch ∧ ch ≤ 'Z' then Char.ofNat (ch.toNat + 32)
  else if 0x410 ≤ ch.toNat ∧ ch.toNat ≤ 0x42F then Char.ofNat (ch.toNat + 32)
  else if ch.toNat = 0x401 then Char.ofNat 0x451
  else if ch.toNat = 0x404 then Char.ofNat 0x454
  else if ch.toNat = 0x406 then Char.ofNat 0x456
  else if ch.toNat = 0x407 then Char.ofNat 0x457
  else ch

/-- Rust `s.to_lowercase()` on the characters used here. -/
def rustToLower (s : String) : String :=
  String.mk (s.toList.map rustCharToLower)

/-- Decimal value of a digit string. -/
def digitsToNat (cs : List Char) : Nat :=
  cs.foldl (fun acc ch => acc * 10 + (ch.toNat - 48)) 0

/-- Rust `s.parse::<u32>()`: an optional leading plus sign followed by at
least one ASCII digit.  Overflow behaviour is irrelevant here because the
parsed value is immediately range-checked against 1..=12. -/
def parseU32 (s : String) : Option Nat :=
  let cs := s.toList
  let t := if cs.head? = some '+' then cs.tail else cs
  if t ≠ [] ∧ t.all Char.isDigit then some (digitsToNat t) else none

/-- The 35-entry month-name table of `parse_month`
(`src/formatter.rs:259-298`). -/
def MONTH_NAMES : List (String × Nat) :=
  [("january", 1), ("february", 2), ("march", 3), ("april", 4), ("may", 5),
   ("june", 6), ("july", 7), ("august", 8), ("september", 9), ("october", 10),
   ("november", 11), ("december", 12),
   ("январь", 1), ("февраль", 2), ("март", 3), ("апрель", 4), ("май", 5),
   ("июнь", 6), ("июль", 7), ("август", 8), ("сентябрь", 9), ("октябрь", 10),
   ("ноябрь", 11), ("декабрь", 12),
   ("jan", 1), ("feb", 2), ("mar", 3), ("apr", 4), ("jun", 6), ("jul", 7),
   ("aug", 8), ("sep", 9), ("oct", 10), ("nov", 11), ("dec", 12)]

/-- `parse_month` (`src/formatter.rs:251-303`). -/
def parse_month (s : String) : Option Nat :=
  match parseU32 s with
  | some n =>
    if 1 ≤ n ∧ n ≤ 12 then some n
    else (MONTH_NAMES.find? (fun p => p.1 == rustToLower s)).map (·.2)
  | none => (MONTH_NAMES.find? (fun p => p.1 == rustToLower s)).map (·.2)

/-!
Holiday classification boundary (`src/formatter.rs:11-175`).  The three
process-wide `Mutex` globals (`PLUGIN`, `COUNTRY`, `HOLIDAY_CACHE`) become a
`GlobalState` record threaded explicitly; the extension loaded by
`try_load_plugin` and its fetch results are an oracle (`Env`, `PluginHandle`)
since they live outside `src/` (dynamic library plus network).
-/

/-- The loaded extension: `get_holidays`, `get_year_holidays` and
`get_country_from_locale` of `plugin_api::PluginHandle`. -/
structure PluginHandle where
  get_holidays : Int → Nat → String → Option String
  get_year_holidays : Int → String → Option String
  get_country_from_locale : String

/-- The process environment: what `plugin_api::try_load_plugin` finds. -/
structure Env where
  try_load_plugin : Option PluginHandle

/-- The three globals of `src/formatter.rs`: plugin handle, country, and the
single holiday cache slot `(year, month-or-zero, data)`. -/
structure GlobalState where
  plugin : Option PluginHandle
  country : Option String
  cache : Option (Int × Nat × String)

/-- The state at process start: all three globals empty. -/
def emptyState : GlobalState := ⟨none, none, none⟩

/-- `init_plugin` (`src/formatter.rs:61-76`). -/
def init_plugin (env : Env) (s : GlobalState) : Bool × GlobalState :=
  if s.plugin.isSome then (true, s)
  else
    match env.try_load_plugin with
    | some p => (true, { s with plugin := some p, country := some p.get_country_from_locale })
    | none => (false, s)

/-- `data.chars().nth(idx).and_then(|c| c.to_digit(10)).map(|d| d as i32).unwrap_or(0)`. -/
def codeAt (data : String) (idx : Nat) : Int :=
  match data.toList.get? idx with
  | some ch => if ch.isDigit then ((ch.toNat - 48 : Nat) : Int) else 0
  | none => 0

/-- The cache-miss fetch path of `get_holiday_code`
(`src/formatter.rs:115-147`): load the plugin, fetch the month payload,
update the cache unless a same-year whole-year entry is resident, and read
the day's code. -/
def holidayFetch (env : Env) (year : Int) (month day : Nat) (s : GlobalState) :
    Int × GlobalState :=
  match init_plugin env s with
  | (ok, s1) =>
    if !ok then (0, s1)
    else
      match s1.plugin, s1.country with
      | some p, some co =>
        (match p.get_holidays year month co with
         | some data =>
           let should_update :=
             match s1.cache with
             | some (cached_year, cached_month, _) =>
               !(cached_year == year && cached_month == 0)
             | none => true
           let s2 := if should_update then { s1 with cache := some (year, month, data) } else s1
           let day_idx := day - 1
           if day_idx < data.length then (codeAt data day_idx, s2) else (0, s2)
         | none => (0, s1))
      | _, _ => (0, s1)

/-- `get_holiday_code` (`src/formatter.rs:79-148`).  Within a same-year cache
hit the source returns 0 early for an invalid date or a month mismatch,
returns the indexed code when the index is inside the payload, and otherwise
falls through to the fetch path. -/
def get_holiday_code (env : Env) (c : CalContext) (year : Int) (month day : Nat)
    (s : GlobalState) : Int × GlobalState :=
  if !c.holidays then (0, s)
  else
    match s.cache with
    | some (cached_year, cached_month, data) =>
      if cached_year = year then
        if cached_month = 0 then
          if gregValid year month day then
            let day_idx := gregOrdinal year month day - 1
            if day_idx < data.length then (codeAt data day_idx, s)
            else holidayFetch env year month day s
          else (0, s)
        else if cached_month = month then
          let day_idx := day - 1
          if day_idx < data.length then (codeAt data day_idx, s)
          else holidayFetch env year month day s
        else (0, s)
      else holidayFetch env year month day s
    | none => holidayFetch env year month day s

/-- `preload_year_holidays` (`src/formatter.rs:26-55`). -/
def preload_year_holidays (env : Env) (c : CalContext) (year : Int)
    (s : GlobalState) : GlobalState :=
  if !c.holidays then s
  else
    let cachedHit :=
      match s.cache with
      | some (cached_year, cached_month, _) => cached_year == year && cached_month == 0
      | none => false
    if cachedHit then s
    else
      match init_plugin env s with
      | (ok, s1) =>
        if !ok then s1
        else
          match s1.plugin, s1.country with
          | some p, some co =>
            (match p.get_year_holidays year co with
             | some data => { s1 with cache := some (year, 0, data) }
             | none => s1)
          | _, _ => s1

/-- One call into the holiday boundary, for stating properties of call
sequences. -/
inductive HolidayOp where
  | preloadYear (year : Int)
  | getCode (year : Int) (month day : Nat)

/-- Run a sequence of holiday-boundary calls from a state. -/
def runHolidayOps (env : Env) (c : CalContext) : List HolidayOp → GlobalState → GlobalState
  | [], s => s
  | op :: rest, s =>
    match op with
    | .preloadYear y => runHolidayOps env c rest (preload_year_holidays env c y s)
    | .getCode y m d => runHolidayOps env c rest (get_holiday_code env c y m d s).2

/-- Number of resident cache entries (the slot is a single `Option`). -/
def cacheCount (s : GlobalState) : Nat :=
  match s.cache with
  | some _ => 1
  | none => 0

/-!
Concrete contexts used to instantiate the claims.  `ctx1752` matches the
program defaults (`CalContext::new` with no flags): reform at 1752, Monday
week start, ISO week numbering.
-/

def ctx1752 : CalContext :=
  { reform_year := ReformType.year1752.reform_year, week_start := .mon, julian := false,
    week_numbers := false, week_type := .iso, color := false, vertical := false,
    today := ⟨2024, 1, 1⟩, show_year_in_header := true, gutter_width := 2,
    columns := .fixed 1, span := false, holidays := false }

def ctxJulianC : CalContext := { ctx1752 with reform_year := ReformType.julian.reform_year }

def ctxGregorianC : CalContext := { ctx1752 with reform_year := ReformType.gregorian.reform_year }

/-- The historical-reform context with a chosen week start, week-number flag
and week-numbering policy. -/
def reformCtx (ws : Weekday) (wn : Bool) (wt : WeekType) : CalContext :=
  { ctx1752 with week_start := ws, week_numbers := wn, week_type := wt }

/-- `day_of_year` before its reform-gap adjustment: the cumulative table plus
the day, plus one past February in a leap year. -/
def dayOfYearUnadjusted (c : CalContext) (year : Int) (month day : Nat) : Nat :=
  let doy := CalContext.DAYS_BEFORE_MONTH.getD (month - 1) 0 + day
  if 2 < month && c.is_leap_year year then doy + 1 else doy

/-- Modelled from the spec: the claim's criterion for the reform-gap
subtraction, "only when the date lies past the removed gap" (after
13 September of the reform year). -/
def specPastGap (month day : Nat) : Bool :=
  (month == REFORM_MONTH && REFORM_LAST_DAY < day) || REFORM_MONTH < month

/-- Modelled from the spec: the day-of-year the claim predicts, subtracting
the gap length only in the reform year and only past the removed gap. -/
def specDayOfYear (c : CalContext) (year : Int) (month day : Nat) : Nat :=
  dayOfYearUnadjusted c year month day -
    (if year == REFORM_YEAR_GB && specPastGap month day then 11 else 0)


/-- The September 1752 grid of the historical-reform context. -/
def sept1752grid (ws : Weekday) (wn : Bool) (wt : WeekType) : Option MonthData :=
  MonthData.new (reformCtx ws wn wt) 1752 9

/-- Its `days` sequence. -/
def sept1752days (ws : Weekday) (wn : Bool) (wt : WeekType) : List (Option Nat) :=
  ((sept1752grid ws wn wt).map (·.days)).getD []

/-- Two day numbers sit in adjacent cells of a day sequence. -/
def adjacentCells (l : List (Option Nat)) (a b : Nat) : Bool :=
  (l.zip l.tail).any (fun p => (p.1 == some a && p.2 == some b) || (p.1 == some b && p.2 == some a))

/-- The corrected shape of the September 1752 grid: built successfully, 42
cells, exactly 19 populated days, none of days 3–13 present, and the
populated days in cell order are exactly 1, 2, 14, 15, …, 30 — so day 2 and
day 14 are present and consecutive among the populated cells (though
separated by the gap's 11 empty cells). -/
@[reducible] def sept1752ok (ws : Weekday) (wn : Bool) (wt : WeekType) : Prop :=
  (sept1752grid ws wn wt).isSome = true ∧
  (sept1752days ws wn wt).length = 42 ∧
  (sept1752days ws wn wt).countP (·.isSome) = 19 ∧
  ((List.range' 3 11).all (fun d => !((sept1752days ws wn wt).contains (some d)))) = true ∧
  (sept1752days ws wn wt).filterMap id = [1, 2] ++ List.range' 14 17

def pW : PluginHandle :=
  { get_holidays := fun _ _ _ => some "0110021",
    get_year_holidays := fun _ _ => some "0110",
    get_country_from_locale := "ru" }

def envW : Env := { try_load_plugin := some pW }

def ctxH : CalContext := { ctx1752 with holidays := true }

def pFail : PluginHandle :=
  { get_holidays := fun _ _ _ => none,
    get_year_holidays := fun _ _ => none,
    get_country_from_locale := "en" }

def envNone : Env := { try_load_plugin := none }

/-!
Claim theorems.
-/

/-- Rust truncated remainder on `Nat` casts computes the `Nat` remainder. -/
theorem int_tmod_natCast (a b : Nat) : Int.tmod (a : Int) (b : Int) = ((a % b : Nat) : Int) :=
  rfl

theorem tmod_natCast_eq_emod (y : Nat) (b : Int) (hb : 0 ≤ b) :
    (↑y : Int).tmod b = (↑y : Int) % b :=
  Int.tmod_eq_emod (Int.natCast_nonneg y) hb

theorem is_leap_year_julian_branch (c : CalContext) (y : Nat)
    (h : (y : Int) < c.reform_year) :
    (c.is_leap_year (y : Int) = true) ↔ y % 4 = 0 := by
  simp only [CalContext.is_leap_year, if_pos h, tmod_natCast_eq_emod y 4 (by omega),
    beq_iff_eq]
  omega

theorem is_leap_year_gregorian_branch (c : CalContext) (y : Nat)
    (h : c.reform_year ≤ (y : Int)) :
    (c.is_leap_year (y : Int) = true) ↔ ((y % 4 = 0 ∧ y % 100 ≠ 0) ∨ y % 400 = 0) := by
  simp only [CalContext.is_leap_year, if_neg (not_lt.mpr h),
    tmod_natCast_eq_emod y 4 (by omega), tmod_natCast_eq_emod y 100 (by omega),
    tmod_natCast_eq_emod y 400 (by omega), Bool.or_eq_true, Bool.and_eq_true,
    beq_iff_eq, bne_iff_ne, ne_eq]
  constructor
  · rintro (⟨h4, h100⟩ | h400)
    · exact Or.inl ⟨by omega, by omega⟩
    · exact Or.inr (by omega)
  · rintro (⟨h4, h100⟩ | h400)
    · exact Or.inl ⟨by omega, by omega⟩
    · exact Or.inr (by omega)

/-- C7: over years 1–9999 the always-Julian context uses exactly the rule
"year divisible by 4", the always-Gregorian context exactly the Gregorian
rule, and a general context picks the Julian rule precisely when the year is
strictly below its transition year and the Gregorian rule otherwise. -/
theorem leap_year_rules :
    (∀ y : Nat, 1 ≤ y → y ≤ 9999 →
      ((ctxJulianC.is_leap_year (y : Int) = true) ↔ y % 4 = 0) ∧
      ((ctxGregorianC.is_leap_year (y : Int) = true) ↔
        ((y % 4 = 0 ∧ y % 100 ≠ 0) ∨ y % 400 = 0))) ∧
    (∀ (c : CalContext) (y : Nat), 1 ≤ y → y ≤ 9999 →
      (((y : Int) < c.reform_year) →
        ((c.is_leap_year (y : Int) = true) ↔ y % 4 = 0)) ∧
      ((c.reform_year ≤ (y : Int)) →
        ((c.is_leap_year (y : Int) = true) ↔
          ((y % 4 = 0 ∧ y % 100 ≠ 0) ∨ y % 400 = 0)))) := by
  refine ⟨fun y h1 h2 => ⟨?_, ?_⟩,
    fun c y h1 h2 => ⟨is_leap_year_julian_branch c y, is_leap_year_gregorian_branch c y⟩⟩
  · exact is_leap_year_julian_branch _ y (by
      have : ctxJulianC.reform_year = 2147483647 := rfl
      omega)
  · exact is_leap_year_gregorian_branch _ y (by
      have : ctxGregorianC.reform_year = -2147483648 := rfl
      omega)

/-- Witness for C7 at year 1900: Julian-leap but not Gregorian-leap. -/
theorem leap_year_rules_witness :
    (1 ≤ 1900 ∧ 1900 ≤ 9999) ∧
    (ctxJulianC.is_leap_year ((1900 : Nat) : Int) = true ↔ (1900 : Nat) % 4 = 0) ∧
    (ctxGregorianC.is_leap_year ((1900 : Nat) : Int) = true ↔
      (((1900 : Nat) % 4 = 0 ∧ (1900 : Nat) % 100 ≠ 0) ∨ (1900 : Nat) % 400 = 0)) :=
  ⟨⟨by decide, by decide⟩, (leap_year_rules.1 1900 (by decide) (by decide)).1,
    (leap_year_rules.1 1900 (by decide) (by decide)).2⟩

theorem days_before_month_ge (m : Nat) (h9 : 9 ≤ m) (h12 : m ≤ 12) :
    243 ≤ CalContext.DAYS_BEFORE_MONTH.getD (m - 1) 0 := by
  interval_cases m <;> decide

theorem day_of_year_eq_unadjusted (c : CalContext) (y : Int) (m d : Nat) :
    c.day_of_year y m d =
      (if y = 1752 ∧ 9 ≤ m then dayOfYearUnadjusted c y m d - 11
       else dayOfYearUnadjusted c y m d) := by
  simp only [CalContext.day_of_year, dayOfYearUnadjusted, REFORM_YEAR_GB, REFORM_MONTH,
    REFORM_LAST_DAY, REFORM_FIRST_DAY]
  rcases Decidable.em (y = (1752 : Int)) with hy | hy <;>
    rcases Decidable.em (9 ≤ m) with h9 | h9 <;>
      simp [hy, h9]

theorem dayOfYearUnadjusted_ge (c : CalContext) (y : Int) (m d : Nat) :
    CalContext.DAYS_BEFORE_MONTH.getD (m - 1) 0 + d ≤ dayOfYearUnadjusted c y m d := by
  simp only [dayOfYearUnadjusted]
  split <;> omega

/-- C2 counterexample: on 2 September 1752 — a date at, not past, the removed
gap — `day_of_year` returns 235, not the unsubtracted 246 the claim's
"no subtraction at or before the gap" predicts. -/
theorem day_of_year_cex :
    ctx1752.day_of_year 1752 9 2 = 235 ∧
    specDayOfYear ctx1752 1752 9 2 = 246 ∧
    ctx1752.day_of_year 1752 9 2 ≠ specDayOfYear ctx1752 1752 9 2 := by decide

/-- C2 amended: `day_of_year` subtracts the 11-day gap length exactly once
precisely when the year is 1752 and the month is September or later —
including dates at or before the gap, such as 2 September 1752 — and never
otherwise; the spec's five example values all hold. -/
theorem day_of_year_adjustment :
    (∀ (c : CalContext) (y : Int) (m d : Nat), 1 ≤ m → m ≤ 12 → 1 ≤ d →
      (c.day_of_year y m d = (if y = 1752 ∧ 9 ≤ m then dayOfYearUnadjusted c y m d - 11
        else dayOfYearUnadjusted c y m d)) ∧
      (y = 1752 → 9 ≤ m → c.day_of_year y m d + 11 = dayOfYearUnadjusted c y m d)) ∧
    ctx1752.day_of_year 2024 1 1 = 1 ∧ ctx1752.day_of_year 2024 2 29 = 60 ∧
    ctx1752.day_of_year 2024 12 31 = 366 ∧ ctx1752.day_of_year 1752 9 2 = 235 ∧
    ctx1752.day_of_year 1752 9 14 = 247 := by
  refine ⟨fun c y m d hm1 hm2 hd => ⟨day_of_year_eq_unadjusted c y m d, fun hy h9 => ?_⟩,
    by decide, by decide, by decide, by decide, by decide⟩
  have htab := days_before_month_ge m h9 hm2
  have hge := dayOfYearUnadjusted_ge c y m d
  rw [day_of_year_eq_unadjusted, if_pos ⟨hy, h9⟩]
  omega

/-- Witness for C2's amended theorem at the default context and
14 September 1752. -/
theorem day_of_year_adjustment_witness :
    ctx1752.day_of_year 1752 9 14 =
      (if (1752 : Int) = 1752 ∧ 9 ≤ 9 then dayOfYearUnadjusted ctx1752 1752 9 14 - 11
       else dayOfYearUnadjusted ctx1752 1752 9 14) ∧
    ctx1752.day_of_year 1752 9 14 + 11 = dayOfYearUnadjusted ctx1752 1752 9 14 :=
  ⟨(day_of_year_adjustment.1 ctx1752 1752 9 14 (by decide) (by decide) (by decide)).1,
   (day_of_year_adjustment.1 ctx1752 1752 9 14 (by decide) (by decide) (by decide)).2
     rfl (by decide)⟩

theorem is_leap_year_1752 (c : CalContext) : c.is_leap_year 1752 = true := by
  simp only [CalContext.is_leap_year]
  split <;> decide

/-- C9: the reform-gap subtraction in `day_of_year` depends only on the
queried year and month, never on the context's transition setting: every
context subtracts 11 for year 1752 and month ≥ 9, and in particular every
context — always-Gregorian and always-Julian included — maps 31 December
1752 to 355. -/
theorem day_of_year_gap_context_independent :
    (∀ (c : CalContext) (m d : Nat), 9 ≤ m → m ≤ 12 → 1 ≤ d →
      c.day_of_year 1752 m d + 11 = dayOfYearUnadjusted c 1752 m d) ∧
    (∀ c : CalContext, c.day_of_year 1752 12 31 = 355) := by
  constructor
  · intro c m d h9 h12 hd
    have htab := days_before_month_ge m h9 h12
    have hge := dayOfYearUnadjusted_ge c 1752 m d
    rw [day_of_year_eq_unadjusted, if_pos ⟨rfl, h9⟩]
    omega
  · intro c
    have h := is_leap_year_1752 c
    simp [CalContext.day_of_year, h, CalContext.DAYS_BEFORE_MONTH, REFORM_YEAR_GB,
      REFORM_MONTH, REFORM_LAST_DAY, REFORM_FIRST_DAY]

/-- Witness for C9 in the always-Gregorian and always-Julian contexts. -/
theorem day_of_year_gap_context_independent_witness :
    ctxGregorianC.day_of_year 1752 10 1 + 11 = dayOfYearUnadjusted ctxGregorianC 1752 10 1 ∧
    ctxJulianC.day_of_year 1752 12 31 = 355 :=
  ⟨day_of_year_gap_context_independent.1 ctxGregorianC 10 1 (by decide) (by decide) (by decide),
   day_of_year_gap_context_independent.2 ctxJulianC⟩

/-- C5 (code bug): inputs that satisfy the documented precondition — year in
1–9999, month in 1–12, day within `days_in_month` for the context — still
reach the panicking `unwrap` in `week_number`: 29 February 1500 is a valid
Julian date under the default 1752-reform context (and 29 February 1900
under the always-Julian context) but is not a valid `chrono` Gregorian date,
so `from_ymd_opt` returns `None` and the `unwrap` panics, under both the ISO
and the US policy; building the February 1500 grid with week numbers enabled
hits the same panic. -/
theorem week_number_panics :
    ctx1752.days_in_month 1500 2 = 29 ∧
    ctx1752.week_number 1500 2 29 = none ∧
    ({ ctx1752 with week_type := .us }).week_number 1500 2 29 = none ∧
    MonthData.new { ctx1752 with week_numbers := true } 1500 2 = none ∧
    ctxJulianC.days_in_month 1900 2 = 29 ∧
    ctxJulianC.week_number 1900 2 29 = none := by decide

/-- C1 counterexample: in the September 1752 grid days 2 and 14 are both
present but do not occupy adjacent cells — the builder emits 11 empty cells
between them — under both week starts. -/
theorem sept1752_not_adjacent :
    (sept1752grid .mon false .iso).isSome = true ∧
    (sept1752days .mon false .iso).contains (some 2) = true ∧
    (sept1752days .mon false .iso).contains (some 14) = true ∧
    adjacentCells (sept1752days .mon false .iso) 2 14 = false ∧
    (sept1752grid .sun false .iso).isSome = true ∧
    adjacentCells (sept1752days .sun false .iso) 2 14 = false := by decide

/-- C1 amended: for every combination of week start (Monday/Sunday),
week-number flag and week-numbering policy, the September 1752 grid has 19
populated days, days 3–13 absent, and days 2 and 14 present and consecutive
among the populated cells in cell order (with the gap's 11 empty cells
between them). -/
theorem sept1752_grid_shape :
    sept1752ok .mon false .iso ∧ sept1752ok .mon false .us ∧
    sept1752ok .mon true .iso ∧ sept1752ok .mon true .us ∧
    sept1752ok .sun false .iso ∧ sept1752ok .sun false .us ∧
    sept1752ok .sun true .iso ∧ sept1752ok .sun true .us := by decide

/-- C8 counterexample: the program renders Ukrainian and Belarusian month
names (locales `uk_UA` and `be_BY` are special-cased in `get_month_name`),
but `parse_month` knows only English and Russian names, so the round trip
fails: parsing the rendered Ukrainian January yields nothing. -/
theorem parse_month_uk_cex :
    parse_month (get_month_name .uk_UA 1) = none ∧
    get_month_name .uk_UA 1 = "Січень" ∧
    parse_month (get_month_name .be_BY 1) = none := by decide

/-- C8 amended: the round trip `parse_month (get_month_name m) = some m`
holds for every month under the Russian and English (default-fallback)
locales, and every entry of the 35-name table — English and Russian full
names plus English abbreviations — parses to its month; but it fails for all
rendered Ukrainian names and for all rendered Belarusian names except May
(which coincides with the Russian name). -/
theorem month_name_round_trip :
    ((List.range' 1 12).all (fun m =>
      parse_month (get_month_name .ru_RU m) == some m &&
      parse_month (get_month_name .en_US m) == some m)) = true ∧
    (MONTH_NAMES.all (fun p => parse_month p.1 == some p.2)) = true ∧
    parse_month (get_month_name .be_BY 5) = some 5 ∧
    ((List.range' 1 12).all (fun m =>
      (parse_month (get_month_name .uk_UA m)).isNone)) = true ∧
    ((List.range' 1 12).all (fun m =>
      m == 5 || (parse_month (get_month_name .be_BY m)).isNone)) = true := by decide

/-- C10: with the color flag off, every day cell — horizontal or vertical —
is exactly the plain right-justified day number (plus the column separator
when not last), contains no ANSI escape character, ignores the holiday
oracle entirely, and is identical across runs that differ only in today's
date, the weekday, or the holiday data. -/
theorem format_day_plain_without_color :
    (∀ (c : CalContext) (getCode : Int → Nat → Nat → Int) (day month : Nat) (year : Int)
        (wd : Weekday) (last : Bool), c.color = false →
      format_day c getCode day month year wd last =
        rightJust 2 day ++ (if last then "" else " ")) ∧
    (∀ day : Nat, day < 32 →
      ((rightJust 2 day ++ " ").toList.all (fun ch => !(ch == Char.ofNat 27))) = true ∧
      ((rightJust 2 day).toList.all (fun ch => !(ch == Char.ofNat 27))) = true ∧
      ((rightJust 3 day).toList.all (fun ch => !(ch == Char.ofNat 27))) = true) ∧
    (∀ (c : CalContext) (t t' : NDate) (gc gc' : Int → Nat → Nat → Int) (day month : Nat)
        (year : Int) (wd wd' : Weekday) (last : Bool), c.color = false →
      format_day { c with today := t } gc day month year wd last =
        format_day { c with today := t' } gc' day month year wd' last) ∧
    (∀ (c : CalContext) (gc : Int → Nat → Nat → Int) (day mm : Nat) (my : Int) (wd : Weekday),
      c.color = false → print_day_vertical c gc day my mm wd = rightJust 3 day) := by
  have h1 : ∀ (c : CalContext) (getCode : Int → Nat → Nat → Int) (day month : Nat) (year : Int)
      (wd : Weekday) (last : Bool), c.color = false →
      format_day c getCode day month year wd last =
        rightJust 2 day ++ (if last then "" else " ") := by
    intro c getCode day month year wd last hc
    simp [format_day, hc]
    cases last <;> simp
  refine ⟨h1, by decide, ?_, ?_⟩
  · intro c t t' gc gc' day month year wd wd' last hc
    rw [h1 _ _ _ _ _ _ _ (by simpa using hc), h1 _ _ _ _ _ _ _ (by simpa using hc)]
  · intro c gc day mm my wd hc
    simp [print_day_vertical, hc]

/-- Witness for C10 at the colorless default context, a weekend day, a
holiday oracle that would highlight, and two different todays. -/
theorem format_day_plain_without_color_witness :
    (format_day ctx1752 (fun _ _ _ => 8) 5 9 1752 .sat false =
      rightJust 2 5 ++ (if false then "" else " ")) ∧
    ((rightJust 2 31 ++ " ").toList.all (fun ch => !(ch == Char.ofNat 27))) = true ∧
    (format_day { ctx1752 with today := ⟨2024, 1, 1⟩ } (fun _ _ _ => 8) 5 9 1752 .sat false =
      format_day { ctx1752 with today := ⟨1752, 9, 5⟩ } (fun _ _ _ => 2) 5 9 1752 .mon false) ∧
    print_day_vertical ctx1752 (fun _ _ _ => 1) 5 1752 9 .sun = rightJust 3 5 :=
  ⟨format_day_plain_without_color.1 ctx1752 (fun _ _ _ => 8) 5 9 1752 .sat false rfl,
   (format_day_plain_without_color.2.1 31 (by decide)).1,
   format_day_plain_without_color.2.2.1 ctx1752 ⟨2024, 1, 1⟩ ⟨1752, 9, 5⟩
     (fun _ _ _ => 8) (fun _ _ _ => 2) 5 9 1752 .sat .mon false rfl,
   format_day_plain_without_color.2.2.2 ctx1752 (fun _ _ _ => 1) 5 9 1752 .sun rfl⟩

theorem holidayFetch_preserves_year_cache (env : Env) (y : Int) (m d : Nat)
    (s : GlobalState) (data : String) (h : s.cache = some (y, 0, data)) :
    ((holidayFetch env y m d s).2).cache = some (y, 0, data) := by
  obtain ⟨pl, co, ca⟩ := s
  simp only at h
  subst h
  cases pl with
  | some p =>
    simp only [holidayFetch, init_plugin, Option.isSome_some, if_true, Bool.not_true,
      Bool.false_eq_true, if_false]
    cases co with
    | none => rfl
    | some c0 =>
      cases hfetch : p.get_holidays y m c0 with
      | none => simp [hfetch]
      | some data2 =>
        simp only [hfetch]
        split <;> simp
  | none =>
    cases henv : env.try_load_plugin with
    | none => simp [holidayFetch, init_plugin, henv]
    | some p =>
      cases hfetch : p.get_holidays y m p.get_country_from_locale with
      | none => simp [holidayFetch, init_plugin, henv, hfetch]
      | some data2 =>
        simp only [holidayFetch, init_plugin, henv, hfetch]
        split <;> (first | rfl | (simp [hfetch]; split <;> rfl))

theorem get_holiday_code_preserves_year_cache (env : Env) (c : CalContext) (y : Int)
    (m d : Nat) (s : GlobalState) (data : String) (h : s.cache = some (y, 0, data)) :
    ((get_holiday_code env c y m d s).2).cache = some (y, 0, data) := by
  cases hh : c.holidays
  · simp [get_holiday_code, hh, h]
  · simp only [get_holiday_code, hh, h, Bool.not_true, Bool.false_eq_true, if_false,
      if_pos rfl]
    split_ifs <;>
      first
        | exact h
        | exact holidayFetch_preserves_year_cache env y m d s data h

theorem preload_preserves_year_cache (env : Env) (c : CalContext) (y : Int)
    (s : GlobalState) (data : String) (h : s.cache = some (y, 0, data)) :
    (preload_year_holidays env c y s).cache = some (y, 0, data) := by
  cases hh : c.holidays <;> simp [preload_year_holidays, hh, h]

theorem get_holiday_code_replaces (env : Env) (c : CalContext) (y : Int) (m d : Nat)
    (s : GlobalState) (p : PluginHandle) (co data : String)
    (hhol : c.holidays = true) (hp : s.plugin = some p) (hco : s.country = some co)
    (hfetch : p.get_holidays y m co = some data)
    (hdiff : ∀ cy cm dta, s.cache = some (cy, cm, dta) → cy ≠ y) :
    ((get_holiday_code env c y m d s).2).cache = some (y, m, data) := by
  obtain ⟨pl, country, ca⟩ := s
  simp only at hp hco
  subst hp hco
  have hfetchPath : ((holidayFetch env y m d ⟨some p, some co, ca⟩).2).cache
      = some (y, m, data) := by
    simp only [holidayFetch, init_plugin, Option.isSome_some, if_true, Bool.not_true,
      Bool.false_eq_true, if_false, hfetch]
    cases ca with
    | none => split <;> rfl
    | some entry =>
      obtain ⟨cy, cm, dta⟩ := entry
      have : cy ≠ y := hdiff cy cm dta rfl
      simp [this]
      split <;> rfl
  cases ca with
  | none => simpa [get_holiday_code, hhol] using hfetchPath
  | some entry =>
    obtain ⟨cy, cm, dta⟩ := entry
    have hne : cy ≠ y := hdiff cy cm dta rfl
    simpa [get_holiday_code, hhol, hne] using hfetchPath

theorem preload_year_holidays_replaces (env : Env) (c : CalContext) (y : Int)
    (s : GlobalState) (p : PluginHandle) (co data : String)
    (hhol : c.holidays = true) (hp : s.plugin = some p) (hco : s.country = some co)
    (hfetch : p.get_year_holidays y co = some data)
    (hdiff : ∀ cy cm dta, s.cache = some (cy, cm, dta) → cy ≠ y) :
    (preload_year_holidays env c y s).cache = some (y, 0, data) := by
  obtain ⟨pl, country, ca⟩ := s
  simp only at hp hco
  subst hp hco
  cases ca with
  | none =>
    simp [preload_year_holidays, hhol, init_plugin, hfetch]
  | some entry =>
    obtain ⟨cy, cm, dta⟩ := entry
    have hne : cy ≠ y := hdiff cy cm dta rfl
    simp [preload_year_holidays, hhol, init_plugin, hfetch, hne]

theorem cacheCount_le_one (s : GlobalState) : cacheCount s ≤ 1 := by
  cases h : s.cache <;> simp [cacheCount, h]

/-- C3: holiday-cache policy — a resident whole-year entry (month 0) for
year Y is never replaced or altered by any later lookup or preload for the
same Y (in particular not by a per-month fetch); any successful fetch —
per-month or whole-year — for a year different from the resident entry's
year replaces the entry outright; and the cache holds at most one entry in
every state reachable from the empty cache. -/
theorem holiday_cache_policy :
    (∀ (env : Env) (c : CalContext) (y : Int) (m d : Nat) (s : GlobalState) (data : String),
      s.cache = some (y, 0, data) →
      ((get_holiday_code env c y m d s).2).cache = some (y, 0, data)) ∧
    (∀ (env : Env) (c : CalContext) (y : Int) (s : GlobalState) (data : String),
      s.cache = some (y, 0, data) →
      (preload_year_holidays env c y s).cache = some (y, 0, data)) ∧
    (∀ (env : Env) (c : CalContext) (y : Int) (m d : Nat) (s : GlobalState)
        (p : PluginHandle) (co data : String),
      c.holidays = true → s.plugin = some p → s.country = some co →
      p.get_holidays y m co = some data →
      (∀ cy cm dta, s.cache = some (cy, cm, dta) → cy ≠ y) →
      ((get_holiday_code env c y m d s).2).cache = some (y, m, data)) ∧
    (∀ (env : Env) (c : CalContext) (y : Int) (s : GlobalState)
        (p : PluginHandle) (co data : String),
      c.holidays = true → s.plugin = some p → s.country = some co →
      p.get_year_holidays y co = some data →
      (∀ cy cm dta, s.cache = some (cy, cm, dta) → cy ≠ y) →
      (preload_year_holidays env c y s).cache = some (y, 0, data)) ∧
    (∀ (env : Env) (c : CalContext) (ops : List HolidayOp),
      cacheCount (runHolidayOps env c ops emptyState) ≤ 1) :=
  ⟨get_holiday_code_preserves_year_cache, preload_preserves_year_cache,
   get_holiday_code_replaces, preload_year_holidays_replaces,
   fun _ _ _ => cacheCount_le_one _⟩

/-- Witness for C3 with a concrete plugin, payloads and resident entries. -/
theorem holiday_cache_policy_witness :
    ((get_holiday_code envW ctxH 2024 5 3 ⟨some pW, some "ru", some (2024, 0, "0110")⟩).2).cache
      = some (2024, 0, "0110") ∧
    (preload_year_holidays envW ctxH 2024 ⟨some pW, some "ru", some (2024, 0, "0110")⟩).cache
      = some (2024, 0, "0110") ∧
    ((get_holiday_code envW ctxH 2025 5 3 ⟨some pW, some "ru", some (2024, 0, "0110")⟩).2).cache
      = some (2025, 5, "0110021") ∧
    (preload_year_holidays envW ctxH 2025 ⟨some pW, some "ru", some (2024, 7, "0110021")⟩).cache
      = some (2025, 0, "0110") ∧
    cacheCount (runHolidayOps envW ctxH [.preloadYear 2024, .getCode 2024 5 3] emptyState) ≤ 1 :=
  ⟨holiday_cache_policy.1 envW ctxH 2024 5 3 _ "0110" rfl,
   holiday_cache_policy.2.1 envW ctxH 2024 _ "0110" rfl,
   holiday_cache_policy.2.2.1 envW ctxH 2025 5 3 _ pW "ru" "0110021" rfl rfl rfl rfl
     (by intro cy cm dta hca; simp [Prod.ext_iff] at hca; omega),
   holiday_cache_policy.2.2.2.1 envW ctxH 2025 _ pW "ru" "0110" rfl rfl rfl rfl
     (by intro cy cm dta hca; simp [Prod.ext_iff] at hca; omega),
   holiday_cache_policy.2.2.2.2 envW ctxH [.preloadYear 2024, .getCode 2024 5 3]⟩

theorem char_eq_of_toNat_eq (a b : Char) (h : a.toNat = b.toNat) : a = b := by
  apply Char.ext
  exact UInt32.toNat.inj h

/-- C6: every holiday-boundary failure — extension missing, fetch returning
nothing, payload too short or day index out of range, a non-digit
classification character, or a digit outside the code alphabet — yields a
code the Composer renders exactly like a working day: the code is never 1, 2
or 8, and both day renderers produce the same text as with the
all-working (0) classifier; the renderers are total, so rendering always
proceeds. -/
theorem holiday_failure_unknown :
    (∀ (env : Env) (c : CalContext) (y : Int) (m d : Nat) (s : GlobalState),
      s.cache = none → s.plugin = none → env.try_load_plugin = none →
      (get_holiday_code env c y m d s).1 = 0) ∧
    (∀ (env : Env) (c : CalContext) (y : Int) (m d : Nat) (s : GlobalState)
        (p : PluginHandle) (co : String),
      s.cache = none → s.plugin = some p → s.country = some co →
      p.get_holidays y m co = none →
      (get_holiday_code env c y m d s).1 = 0) ∧
    (∀ (env : Env) (c : CalContext) (y : Int) (m d : Nat) (s : GlobalState) (data : String),
      1 ≤ m → s.cache = some (y, m, data) → data.length ≤ d - 1 →
      s.plugin = none → env.try_load_plugin = none →
      (get_holiday_code env c y m d s).1 = 0) ∧
    (∀ (env : Env) (c : CalContext) (y : Int) (m d : Nat) (s : GlobalState)
        (data : String) (ch : Char),
      1 ≤ m → s.cache = some (y, m, data) → d - 1 < data.length →
      data.toList.get? (d - 1) = some ch → ¬ch.isDigit →
      (get_holiday_code env c y m d s).1 = 0) ∧
    (∀ (env : Env) (c : CalContext) (y : Int) (m d : Nat) (s : GlobalState)
        (data : String) (ch : Char),
      1 ≤ m → s.cache = some (y, m, data) → d - 1 < data.length →
      data.toList.get? (d - 1) = some ch → ch.isDigit →
      ch ≠ '1' → ch ≠ '2' → ch ≠ '8' →
      (get_holiday_code env c y m d s).1 ≠ 1 ∧
      (get_holiday_code env c y m d s).1 ≠ 2 ∧
      (get_holiday_code env c y m d s).1 ≠ 8) ∧
    (∀ (c : CalContext) (gc : Int → Nat → Nat → Int) (day month : Nat) (year : Int)
        (wd : Weekday) (last : Bool),
      gc year month day ≠ 1 → gc year month day ≠ 2 → gc year month day ≠ 8 →
      format_day c gc day month year wd last =
        format_day c (fun _ _ _ => 0) day month year wd last) ∧
    (∀ (c : CalContext) (gc : Int → Nat → Nat → Int) (day mm : Nat) (my : Int)
        (wd : Weekday),
      gc my mm day ≠ 1 → gc my mm day ≠ 2 → gc my mm day ≠ 8 →
      print_day_vertical c gc day my mm wd =
        print_day_vertical c (fun _ _ _ => 0) day my mm wd) := by
  refine ⟨?_, ?_, ?_, ?_, ?_, ?_, ?_⟩
  · intro env c y m d s hca hp henv
    cases hh : c.holidays <;>
      simp [get_holiday_code, holidayFetch, init_plugin, hh, hca, hp, henv]
  · intro env c y m d s p co hca hp hco hfetch
    obtain ⟨pl, country, ca⟩ := s
    simp only at hca hp hco
    subst hca hp hco
    cases hh : c.holidays <;>
      simp [get_holiday_code, holidayFetch, init_plugin, hh, hfetch]
  · intro env c y m d s data hm hca hlen hp henv
    have hm0 : m ≠ 0 := by omega
    cases hh : c.holidays <;>
      simp [get_holiday_code, holidayFetch, init_plugin, hh, hca, hp, henv, hm0,
        Nat.not_lt.mpr hlen]
  · intro env c y m d s data ch hm hca hlen hget hdig
    have hm0 : m ≠ 0 := by omega
    have hlen2 : d - 1 < data.data.length := hlen
    have hch : data.data.get ⟨d - 1, hlen2⟩ = ch := by
      have h2 := hget
      rw [show data.toList = data.data from rfl, List.get?_eq_get hlen2] at h2
      exact Option.some.inj h2
    rw [List.get_eq_getElem] at hch
    cases hh : c.holidays <;>
      simp [get_holiday_code, hh, hca, hm0, hlen, codeAt, List.get?_eq_get hlen2,
        hch, hdig]
  · intro env c y m d s data ch hm hca hlen hget hdig h1 h2 h8
    have hm0 : m ≠ 0 := by omega
    have hlen2 : d - 1 < data.data.length := hlen
    have hch : data.data.get ⟨d - 1, hlen2⟩ = ch := by
      have hx := hget
      rw [show data.toList = data.data from rfl, List.get?_eq_get hlen2] at hx
      exact Option.some.inj hx
    rw [List.get_eq_getElem] at hch
    have hrange : 48 ≤ ch.toNat ∧ ch.toNat ≤ 57 := by
      simp [Char.isDigit] at hdig
      exact hdig
    have hne1 : ch.toNat ≠ 49 := fun hx => h1 (char_eq_of_toNat_eq ch '1' hx)
    have hne2 : ch.toNat ≠ 50 := fun hx => h2 (char_eq_of_toNat_eq ch '2' hx)
    have hne8 : ch.toNat ≠ 56 := fun hx => h8 (char_eq_of_toNat_eq ch '8' hx)
    cases hh : c.holidays
    · have hcode : (get_holiday_code env c y m d s).1 = 0 := by
        simp [get_holiday_code, hh]
      rw [hcode]
      refine ⟨by decide, by decide, by decide⟩
    · have hcode : (get_holiday_code env c y m d s).1 = ((ch.toNat - 48 : Nat) : Int) := by
        simp [get_holiday_code, hh, hca, hm0, hlen, codeAt, List.get?_eq_get hlen2,
          hch, hdig]
      refine ⟨?_, ?_, ?_⟩ <;> rw [hcode] <;> intro hx <;> omega
  · intro c gc day month year wd last h1 h2 h8
    have e1 : (gc year month day == 1) = false := by simp [h1]
    have e2 : (gc year month day == 2) = false := by simp [h2]
    have e8 : (gc year month day == 8) = false := by simp [h8]
    by_cases hcol : c.color <;> simp [format_day, hcol, e1, e2, e8]
  · intro c gc day mm my wd h1 h2 h8
    have e1 : (gc my mm day == 1) = false := by simp [h1]
    have e2 : (gc my mm day == 2) = false := by simp [h2]
    have e8 : (gc my mm day == 8) = false := by simp [h8]
    by_cases hcol : c.color <;> simp [print_day_vertical, hcol, e1, e2, e8]

/-- Witness for C6 across all failure scenarios at concrete inputs. -/
theorem holiday_failure_unknown_witness :
    (get_holiday_code envNone ctxH 2024 5 3 emptyState).1 = 0 ∧
    (get_holiday_code envNone ctxH 2024 5 3 ⟨some pFail, some "en", none⟩).1 = 0 ∧
    (get_holiday_code envNone ctxH 2024 5 9 ⟨none, none, some (2024, 5, "01")⟩).1 = 0 ∧
    (get_holiday_code envNone ctxH 2024 5 2 ⟨none, none, some (2024, 5, "0x10")⟩).1 = 0 ∧
    ((get_holiday_code envNone ctxH 2024 5 2 ⟨none, none, some (2024, 5, "0510")⟩).1 ≠ 1 ∧
     (get_holiday_code envNone ctxH 2024 5 2 ⟨none, none, some (2024, 5, "0510")⟩).1 ≠ 2 ∧
     (get_holiday_code envNone ctxH 2024 5 2 ⟨none, none, some (2024, 5, "0510")⟩).1 ≠ 8) ∧
    format_day ctx1752 (fun _ _ _ => 5) 3 5 2024 .wed false =
      format_day ctx1752 (fun _ _ _ => 0) 3 5 2024 .wed false ∧
    print_day_vertical ctx1752 (fun _ _ _ => 5) 3 2024 5 .wed =
      print_day_vertical ctx1752 (fun _ _ _ => 0) 3 2024 5 .wed :=
  ⟨holiday_failure_unknown.1 envNone ctxH 2024 5 3 emptyState rfl rfl rfl,
   holiday_failure_unknown.2.1 envNone ctxH 2024 5 3 _ pFail "en" rfl rfl rfl rfl,
   holiday_failure_unknown.2.2.1 envNone ctxH 2024 5 9 _ "01" (by decide) rfl (by decide)
     rfl rfl,
   holiday_failure_unknown.2.2.2.1 envNone ctxH 2024 5 2 _ "0x10" 'x' (by decide) rfl
     (by decide) rfl (by decide),
   holiday_failure_unknown.2.2.2.2.1 envNone ctxH 2024 5 2 _ "0510" '5' (by decide) rfl
     (by decide) rfl (by decide) (by decide) (by decide) (by decide),
   holiday_failure_unknown.2.2.2.2.2.1 ctx1752 (fun _ _ _ => 5) 3 5 2024 .wed false
     (by decide) (by decide) (by decide),
   holiday_failure_unknown.2.2.2.2.2.2 ctx1752 (fun _ _ _ => 5) 3 2024 5 .wed
     (by decide) (by decide) (by decide)⟩

theorem is_reform_gap_true_iff (c : CalContext) (y : Int) (m d : Nat) :
    c.is_reform_gap y m d = true ↔
      ((c.reform_year == 1752 && y == 1752 && m == 9) = true ∧ 3 ≤ d ∧ d ≤ 13) := by
  simp only [CalContext.is_reform_gap, REFORM_YEAR_GB, REFORM_MONTH, REFORM_FIRST_DAY,
    REFORM_LAST_DAY]
  rcases Decidable.em (c.reform_year = (1752 : Int)) with hr | hr <;>
    simp [hr, bne, and_assoc]

theorem days_in_month_le_31 (c : CalContext) (y : Int) (m : Nat) :
    c.days_in_month y m ≤ 31 := by
  simp only [CalContext.days_in_month]
  split <;> first | omega | (split <;> omega)

theorem days_in_month_sept (c : CalContext) (y : Int) : c.days_in_month y 9 = 30 := rfl

theorem gridWalk_spec (c : CalContext) (y : Int) (m dim : Nat) :
    ∀ (fuel day : Nat) (wd : Weekday) (l : List Cell),
    1 ≤ day →
    dim + 1 ≤ fuel + day →
    ((c.reform_year == 1752 && y == 1752 && m == 9) = true → dim = 30 ∧ (day ≤ 3 ∨ 14 ≤ day)) →
    gridWalk c y m dim fuel day wd = some l →
    l.length = dim + 1 - day ∧
    l.countP (fun cell => cell.day.isSome) =
      (dim + 1 - day) -
        (if (c.reform_year == 1752 && y == 1752 && m == 9) = true ∧ day ≤ 3 then 11 else 0) ∧
    (∀ cell ∈ l, cell.day.isSome = cell.weekday.isSome) := by
  intro fuel
  induction fuel with
  | zero =>
    intro day wd l h1 hfuel hgb hw
    simp only [gridWalk] at hw
    obtain rfl : l = [] := (Option.some.inj hw).symm
    refine ⟨by simp; omega, ?_, by simp⟩
    simp only [List.countP_nil]
    split
    · rename_i hcond
      obtain ⟨hdim, _⟩ := hgb hcond.1
      omega
    · omega
  | succ fuel ih =>
    intro day wd l h1 hfuel hgb hw
    rw [gridWalk] at hw
    by_cases hend : dim < day
    · rw [if_pos hend] at hw
      obtain rfl : l = [] := (Option.some.inj hw).symm
      refine ⟨by simp; omega, ?_, by simp⟩
      simp only [List.countP_nil]
      split
      · rename_i hcond
        obtain ⟨hdim, _⟩ := hgb hcond.1
        omega
      · omega
    · rw [if_neg hend] at hw
      by_cases hgap : c.is_reform_gap y m day = true
      · rw [if_pos hgap] at hw
        obtain ⟨hgb2, hd3, hd13⟩ := (is_reform_gap_true_iff c y m day).mp hgap
        obtain ⟨hdim, hside⟩ := hgb hgb2
        have hday3 : day = 3 := by omega
        subst hday3
        obtain ⟨rest, hrest, rfl⟩ : ∃ rest,
            gridWalk c y m dim fuel (REFORM_LAST_DAY + 1) (wd.succN 11) = some rest ∧
              l = List.replicate 11 emptyCell ++ rest := by
          rcases hx : gridWalk c y m dim fuel (REFORM_LAST_DAY + 1) (wd.succN 11) with _ | rest
          · rw [hx] at hw; simp at hw
          · rw [hx] at hw; simp at hw; exact ⟨rest, rfl, hw.symm⟩
        obtain ⟨hlen, hcount, hmem⟩ := ih (REFORM_LAST_DAY + 1) (wd.succN 11) rest
          (by simp [REFORM_LAST_DAY]) (by simp [REFORM_LAST_DAY]; omega)
          (fun _ => ⟨hdim, by simp [REFORM_LAST_DAY]⟩) hrest
        simp only [REFORM_LAST_DAY] at hlen hcount
        rw [if_neg (fun hx => absurd hx.2 (by omega))] at hcount
        refine ⟨?_, ?_, ?_⟩
        · simp [List.length_append, hlen]; omega
        · rw [List.countP_append, hcount]
          have hz : (List.replicate 11 emptyCell).countP (fun cell => cell.day.isSome) = 0 := by
            decide
          rw [hz]
          rw [if_pos (⟨hgb2, by omega⟩ :
            (c.reform_year == 1752 && y == 1752 && m == 9) = true ∧ 3 ≤ 3)]
          omega
        · intro cell hc
          rcases List.mem_append.mp hc with hc | hc
          · rw [List.eq_of_mem_replicate hc]; rfl
          · exact hmem cell hc
      · rw [if_neg hgap] at hw
        rcases hcw : cellWeekNumber c y m day with _ | wn
        · rw [hcw] at hw; exact absurd hw (by simp)
        · rw [hcw] at hw
          obtain ⟨rest, hrest, rfl⟩ : ∃ rest,
              gridWalk c y m dim fuel (day + 1) wd.succ = some rest ∧
                l = { day := some day, week_number := wn, weekday := some wd } :: rest := by
            rcases hx : gridWalk c y m dim fuel (day + 1) wd.succ with _ | rest
            · rw [hx] at hw; simp at hw
            · rw [hx] at hw; simp at hw; exact ⟨rest, rfl, hw.symm⟩
          have hnext : (c.reform_year == 1752 && y == 1752 && m == 9) = true →
              dim = 30 ∧ (day + 1 ≤ 3 ∨ 14 ≤ day + 1) := by
            intro hgb2
            obtain ⟨hdim, hside⟩ := hgb hgb2
            refine ⟨hdim, ?_⟩
            rcases hside with hs | hs
            · rcases Nat.lt_or_ge day 3 with hlt | hge
              · omega
              · exfalso
                have : day = 3 := by omega
                subst this
                exact hgap ((is_reform_gap_true_iff c y m 3).mpr ⟨hgb2, by omega, by omega⟩)
            · omega
          obtain ⟨hlen, hcount, hmem⟩ := ih (day + 1) wd.succ rest (by omega) (by omega)
            hnext hrest
          refine ⟨?_, ?_, ?_⟩
          · simp [hlen]; omega
          · have hstep : List.countP (fun cell => cell.day.isSome)
                ({ day := some day, week_number := wn, weekday := some wd } :: rest) =
                List.countP (fun cell => cell.day.isSome) rest + 1 := by
              rw [List.countP_cons]
              rfl
            rw [hstep, hcount]
            rcases Decidable.em ((c.reform_year == 1752 && y == 1752 && m == 9) = true)
              with hgb2 | hgb2
            · have hdim : dim = 30 := (hgb hgb2).1
              have hne3 : day ≠ 3 := by
                intro h3
                subst h3
                exact hgap ((is_reform_gap_true_iff c y m 3).mpr ⟨hgb2, by omega, by omega⟩)
              rcases Decidable.em (day ≤ 3) with hd3 | hd3
              · rw [if_pos (⟨hgb2, by omega⟩ :
                    (c.reform_year == 1752 && y == 1752 && m == 9) = true ∧ day + 1 ≤ 3),
                  if_pos (⟨hgb2, hd3⟩ :
                    (c.reform_year == 1752 && y == 1752 && m == 9) = true ∧ day ≤ 3)]
                omega
              · rw [if_neg (fun hx => hd3 (Nat.le_of_succ_le hx.2)),
                  if_neg (fun hx => hd3 hx.2)]
                omega
            · rw [if_neg (fun hx => hgb2 hx.1), if_neg (fun hx => hgb2 hx.1)]
              omega
          · intro cell hc
            rcases List.mem_cons.mp hc with hc | hc
            · subst hc; rfl
            · exact hmem cell hc

theorem gridOffset_le (c : CalContext) (fd : Weekday)
    (hws : c.week_start = .mon ∨ c.week_start = .sun) :
    ∃ off, c.gridOffset fd = some off ∧ off ≤ 6 := by
  rcases hws with h | h <;> rw [CalContext.gridOffset, h] <;> cases fd <;>
    simp [Weekday.num_days_from_monday, Weekday.num_days_from_sunday]

theorem gap_count (c : CalContext) (y : Int) (m : Nat) :
    (List.range' 1 (c.days_in_month y m)).countP (fun d => c.is_reform_gap y m d) =
      (if (c.reform_year == 1752 && y == 1752 && m == 9) = true then 11 else 0) := by
  rcases Decidable.em ((c.reform_year == 1752 && y == 1752 && m == 9) = true) with hgb | hgb
  · rw [if_pos hgb]
    have hm9 : m = 9 := by
      have := hgb
      simp only [Bool.and_eq_true, beq_iff_eq] at this
      exact this.2
    subst hm9
    rw [days_in_month_sept]
    rw [List.countP_congr (q := fun d => decide (3 ≤ d) && decide (d ≤ 13))]
    · decide
    · intro d _
      constructor
      · intro hd
        obtain ⟨_, h3, h13⟩ := (is_reform_gap_true_iff c y 9 d).mp hd
        simp [h3, h13]
      · intro hd
        simp only [Bool.and_eq_true, decide_eq_true_eq] at hd
        exact (is_reform_gap_true_iff c y 9 d).mpr ⟨hgb, hd.1, hd.2⟩
  · rw [if_neg hgb]
    rw [List.countP_eq_zero]
    intro d _
    intro hd
    exact hgb ((is_reform_gap_true_iff c y m d).mp hd).1

/-- C4: for every context with week start Monday or Sunday and every valid
(year, month), a successfully built MonthGrid has exactly 42 entries in each
of its three parallel sequences, a cell's weekday is present exactly when
its day is present, and the number of populated day cells equals
days-in-month minus the number of reform-gap days of that month and year. -/
theorem month_grid_invariants (c : CalContext) (y : Int) (m : Nat) (g : MonthData)
    (hws : c.week_start = .mon ∨ c.week_start = .sun)
    (hy : 1 ≤ y ∧ y ≤ 9999) (hm : 1 ≤ m ∧ m ≤ 12)
    (hnew : MonthData.new c y m = some g) :
    g.days.length = 42 ∧ g.week_numbers.length = 42 ∧ g.weekdays.length = 42 ∧
    (∀ i : Nat, (g.days.getD i none).isSome = (g.weekdays.getD i none).isSome) ∧
    g.days.countP Option.isSome =
      c.days_in_month y m -
        (List.range' 1 (c.days_in_month y m)).countP (fun d => c.is_reform_gap y m d) := by
  obtain ⟨off, hoff, hoff6⟩ := gridOffset_le c (c.first_day_of_month y m) hws
  rw [MonthData.new, hoff] at hnew
  rcases hwalk : gridWalk c y m (c.days_in_month y m) (c.days_in_month y m + 1) 1
      (c.first_day_of_month y m) with _ | body
  · rw [hwalk] at hnew
    exact absurd hnew (by simp)
  · rw [hwalk] at hnew
    simp only [Option.some.injEq] at hnew
    obtain ⟨hlen, hcount, hmem⟩ := gridWalk_spec c y m (c.days_in_month y m)
      (c.days_in_month y m + 1) 1 (c.first_day_of_month y m) body (by omega) (by omega)
      (fun hgb => by
        have hm9 : m = 9 := by
          simp only [Bool.and_eq_true, beq_iff_eq] at hgb
          exact hgb.2
        subst hm9
        exact ⟨days_in_month_sept c y, Or.inl (by omega)⟩) hwalk
    have hdim31 := days_in_month_le_31 c y m
    set dim := c.days_in_month y m with hdimdef
    set cells1 := List.replicate off emptyCell ++ body with hcells1
    set cells := cells1 ++ List.replicate (CELLS_PER_MONTH - cells1.length) emptyCell
      with hcells
    have hlen1 : cells1.length = off + dim := by
      simp [hcells1, hlen]
    have hlencells : cells.length = 42 := by
      simp only [hcells, List.length_append, List.length_replicate, hlen1, CELLS_PER_MONTH]
      omega
    have hcellmem : ∀ cell ∈ cells, cell.day.isSome = cell.weekday.isSome := by
      intro cell hc
      rcases List.mem_append.mp hc with hc | hc
      · rcases List.mem_append.mp hc with hc | hc
        · rw [List.eq_of_mem_replicate hc]; rfl
        · exact hmem cell hc
      · rw [List.eq_of_mem_replicate hc]; rfl
    subst hnew
    refine ⟨by simp [hlencells], by simp [hlencells], by simp [hlencells], ?_, ?_⟩
    · intro i
      simp only [List.getD_eq_get?, List.get?_map]
      rcases hg : cells.get? i with _ | cell
      · rfl
      · exact hcellmem cell (List.get?_mem hg)
    · rw [gap_count]
      have hrep0 : ∀ n : Nat, (List.replicate n emptyCell).countP
          (fun cell => cell.day.isSome) = 0 := by
        intro n
        rw [List.countP_eq_zero]
        intro a ha
        rw [List.eq_of_mem_replicate ha]
        simp [emptyCell]
      have : (cells.map (fun cell => cell.day)).countP Option.isSome =
          cells.countP (fun cell => cell.day.isSome) := by
        rw [List.countP_map]
        rfl
      rw [this]
      simp only [hcells, hcells1, List.countP_append, hrep0, hcount]
      rcases Decidable.em ((c.reform_year == 1752 && y == 1752 && m == 9) = true)
        with hgb | hgb
      · rw [if_pos hgb, if_pos ⟨hgb, by omega⟩]
        have hdim : dim = 30 := by
          have hm9 : m = 9 := by
            simp only [Bool.and_eq_true, beq_iff_eq] at hgb
            exact hgb.2
          subst hm9
          exact days_in_month_sept c y
        omega
      · rw [if_neg hgb, if_neg (fun hx => hgb hx.1)]
        omega

/-- Witness for C4 at February 2024 under the default context. -/
theorem month_grid_invariants_witness :
    ((MonthData.new ctx1752 2024 2).getD default).days.length = 42 ∧
    ((MonthData.new ctx1752 2024 2).getD default).week_numbers.length = 42 ∧
    ((MonthData.new ctx1752 2024 2).getD default).weekdays.length = 42 ∧
    (((MonthData.new ctx1752 2024 2).getD default).days.getD 3 none).isSome =
      (((MonthData.new ctx1752 2024 2).getD default).weekdays.getD 3 none).isSome ∧
    ((MonthData.new ctx1752 2024 2).getD default).days.countP Option.isSome =
      ctx1752.days_in_month 2024 2 -
        (List.range' 1 (ctx1752.days_in_month 2024 2)).countP
          (fun d => ctx1752.is_reform_gap 2024 2 d) := by
  have hnew : MonthData.new ctx1752 2024 2 =
      some ((MonthData.new ctx1752 2024 2).getD default) := by decide
  obtain ⟨h1, h2, h3, h4, h5⟩ := month_grid_invariants ctx1752 2024 2
    ((MonthData.new ctx1752 2024 2).getD default) (Or.inl rfl)
    ⟨by decide, by decide⟩ ⟨by decide, by decide⟩ hnew
  exact ⟨h1, h2, h3, h4 3, h5⟩
